import Mathlib

/-
Verification of the Election-Hub core against its specification.

Shallow embedding conventions:
* JavaScript `Date` values are modelled as `Option Int` (milliseconds); a date
  field is "set" iff it is `some _` (Date objects are always truthy in JS).
* `now` (the wall clock read inside the functions) is passed explicitly.
* JS numbers on the code paths verified here are modelled as `ℚ`
  (the floating-point rounding of IEEE doubles is out of scope; the
  transcendental haversine kernel is abstracted as a distance parameter).
* Fallible code (exceptions propagating out of a function) is `Except String`.
-/

deriving instance DecidableEq for Except

namespace ElectionHub

/-- Election status as persisted (organizer-set), from the Prisma schema:
draft / registration / voting / closed. -/
inductive Status where
  | draft
  | registration
  | voting
  | closed
deriving DecidableEq, Repr

/-- The derived election phase, `ElectionPhase` in src/lib/election-helpers.ts. -/
inductive Phase where
  | draft
  | before_registration
  | registration
  | between_phases
  | voting
  | closed
deriving DecidableEq, Repr

/-- The fallback `return election.status as ElectionPhase` cast: a status
string read verbatim as a phase. -/
def Status.toPhase : Status → Phase
  | .draft => .draft
  | .registration => .registration
  | .voting => .voting
  | .closed => .closed

/-- Security level of an election: casual / standard / strict. -/
inductive SecurityLevel where
  | casual
  | standard
  | strict
deriving DecidableEq, Repr

/-- A candidate (only the id matters for the verified paths). -/
structure Candidate where
  id : String
deriving DecidableEq, Repr

/-- A position with its candidates, as included by the cast route's query. -/
structure Position where
  id : String
  title : String
  candidates : List Candidate
deriving DecidableEq, Repr

/-- A custom registration field. -/
structure CustomField where
  id : String
  label : String
  isRequired : Bool
deriving DecidableEq, Repr

/-- Geometry tag of a region: circle / polygon / rectangle. -/
inductive GeoType where
  | circle
  | polygon
  | rectangle
deriving DecidableEq, Repr

/-- A coordinate as stored in geometry arrays: `[lng, lat]` order
(longitude first, as in src/unnamed/part_015's `GeoRegion`). -/
abbrev Coord := ℚ × ℚ

/-- The `GeoRegion` shape from src/unnamed/part_015: tagged union with optional fields.
`coordinates` is a list of rings of `[lng, lat]` positions; `center` is
`[lng, lat]`; `radius` is meters. -/
structure GeoRegion where
  type : GeoType
  coordinates : Option (List (List Coord)) := none
  center : Option Coord := none
  radius : Option ℚ := none
deriving DecidableEq, Repr

/-- A persisted region row (geometry already JSON-parsed, as the
registration route does before calling `isPointInRegion`). -/
structure Region where
  id : String
  geometry : GeoRegion
  bufferMeters : ℚ
deriving DecidableEq, Repr

/-- An election row with the relations the verified routes include. -/
structure Election where
  id : String
  status : Status
  autoTransition : Bool
  registrationStart : Option Int := none
  registrationEnd : Option Int := none
  votingStart : Option Int := none
  votingEnd : Option Int := none
  allowVoteUpdate : Bool := false
  requireLocation : Bool := false
  securityLevel : SecurityLevel := .casual
  positions : List Position := []
  regions : List Region := []
  customFields : List CustomField := []
deriving DecidableEq, Repr

/-- JS `d && now > d` for an optional date `d`: set and strictly past. -/
def afterOpt (now : Int) (d : Option Int) : Bool :=
  match d with
  | some t => decide (t < now)
  | none => false

/-- JS `d && now < d`: set and strictly in the future. -/
def beforeOpt (now : Int) (d : Option Int) : Bool :=
  match d with
  | some t => decide (now < t)
  | none => false

/-- JS `d && now >= d`: set and reached. -/
def onOrAfterOpt (now : Int) (d : Option Int) : Bool :=
  match d with
  | some t => decide (t ≤ now)
  | none => false

/-- JS `d && now <= d`: set and not yet past. -/
def onOrBeforeOpt (now : Int) (d : Option Int) : Bool :=
  match d with
  | some t => decide (now ≤ t)
  | none => false

/-- Function `getElectionPhase` from src/lib/election-helpers.ts, with `now`
(read from `new Date()` in the source) passed explicitly. -/
def getElectionPhase (e : Election) (now : Int) : Phase :=
  if e.status = .draft then .draft
  else if e.status = .closed then .closed
  else if e.autoTransition then
    -- Auto mode: dates drive the phase; status only gates draft/closed.
    if afterOpt now e.votingEnd then .closed
    else if onOrAfterOpt now e.votingStart && onOrBeforeOpt now e.votingEnd then .voting
    -- Allow voting even without end date if status is voting and start has passed
    else if e.status = .voting ∧ onOrAfterOpt now e.votingStart then .voting
    else if e.status = .voting ∧ e.votingStart = none then .voting
    else if beforeOpt now e.registrationStart then .before_registration
    else if onOrAfterOpt now e.registrationStart &&
        (e.registrationEnd.isNone || onOrBeforeOpt now e.registrationEnd) then .registration
    else if afterOpt now e.registrationEnd then .between_phases
    else e.status.toPhase
  else
    -- Manual mode: status is the hard gate for the maximum reachable phase.
    if e.status = .registration then
      if beforeOpt now e.registrationStart then .before_registration
      else if afterOpt now e.registrationEnd then .between_phases
      else .registration
    else if e.status = .voting then
      if afterOpt now e.votingEnd then .closed
      else .voting
    else e.status.toPhase

/-! ## Geofence engine (src/unnamed/part_015)

The numeric haversine kernel (`Math.sin`/`cos`/`atan2` on IEEE doubles) is
abstracted as a distance parameter `d lat1 lng1 lat2 lng2`; the engine's
use of that distance is what is verified.  The actual haversine satisfies
`d p p = 0` and `d p q ≥ 0`, which is all the concrete instances below rely
on.  `booleanPointInPolygon` (from `@turf/boolean-point-in-polygon`, an
external dependency) is likewise abstracted as a predicate parameter `pip`
taking the `[lng, lat]` point and the rings. -/

/-- The signature of `haversineDistance(lat1, lon1, lat2, lon2)`. -/
abbrev DistFn := ℚ → ℚ → ℚ → ℚ → ℚ

/-- The signature of `booleanPointInPolygon(point([lng,lat]), polygon(rings))`. -/
abbrev PipFn := Coord → List (List Coord) → Bool

/-- Function `distanceToSegment` from src/unnamed/part_015: clamped parametric
projection `t = clamp((pa² − pb² + ab²)/(2·ab²), 0, 1)` over the measured
`pa`/`pb`/`ab`, then distance to the interpolated point; `pa` when the
segment is degenerate (`ab === 0`). -/
def distanceToSegment (d : DistFn) (pLat pLng aLat aLng bLat bLng : ℚ) : ℚ :=
  let pa := d pLat pLng aLat aLng
  let pb := d pLat pLng bLat bLng
  let ab := d aLat aLng bLat bLng
  if ab = 0 then pa
  else
    let t := max 0 (min 1 ((pa ^ 2 - pb ^ 2 + ab ^ 2) / (2 * ab ^ 2)))
    let projLat := aLat + t * (bLat - aLat)
    let projLng := aLng + t * (bLng - aLng)
    d pLat pLng projLat projLng

/-- The buffer loop of `isPointInRegion`: scan consecutive ring positions
`coords[i], coords[i+1]` (for `i` up to `coords.length - 2`) and succeed as
soon as one edge is within the buffer.  Positions are `[lng, lat]`; the
source passes `coords[i][1]` (lat) first. -/
def edgeWithinBuffer (d : DistFn) (lat lng buffer : ℚ) : List Coord → Bool
  | c1 :: c2 :: rest =>
      decide (distanceToSegment d lat lng c1.2 c1.1 c2.2 c2.1 ≤ buffer)
        || edgeWithinBuffer d lat lng buffer (c2 :: rest)
  | _ => false

/-- The per-ring validation of `polygon()` from `@turf/helpers`: first the
length check (`Each LinearRing of a Polygon must have 4 or more
Positions.` for any ring shorter than 4 positions), then the closure
check comparing the ring's last position against its first
(`First and last Position are not equivalent.`). -/
def ringCheck (ring : List Coord) : Except String Unit :=
  if ring.length < 4 then
    .error "Each LinearRing of a Polygon must have 4 or more Positions."
  else if ring.getLast? ≠ ring.head? then
    .error "First and last Position are not equivalent."
  else .ok ()

/-- The validation loop of `polygon()` over the rings, in order; the first
failing check throws. -/
def ringsCheck : List (List Coord) → Except String Unit
  | [] => .ok ()
  | r :: rs =>
    match ringCheck r with
    | .error s => .error s
    | .ok _ => ringsCheck rs

/-- The polygon/rectangle branch of `isPointInRegion`.  The `polygon()`
validation of `@turf/helpers` (ring length, then ring closure, per ring in
order — see `ringCheck`) throws before any containment test; that
exception escapes `isPointInRegion` (modelled as `.error`).  With an empty
ring list and a positive buffer the source reads
`geometry.coordinates[0].length` on `undefined`, a TypeError (also
`.error`). -/
def polyTest (d : DistFn) (pip : PipFn) (lat lng : ℚ)
    (rings : List (List Coord)) (buffer : ℚ) : Except String Bool :=
  match ringsCheck rings with
  | .error s => .error s
  | .ok _ =>
    if pip (lng, lat) rings then .ok true
    else if 0 < buffer then
      match rings with
      | [] => .error "TypeError: geometry.coordinates[0] is undefined"
      | ring :: _ => .ok (edgeWithinBuffer d lat lng buffer ring)
    else .ok false

/-- Function `isPointInRegion(lat, lng, geometry, bufferMeters)` from
src/unnamed/part_015.  JS truthiness: the circle branch requires
`geometry.center && geometry.radius`, so a present-but-zero radius is
falsy and the function falls through to the final `return false` (the
second branch tests for polygon/rectangle type).  The polygon branch
requires truthy `geometry.coordinates` (an empty array is truthy, a
missing field is not). -/
def isPointInRegion (d : DistFn) (pip : PipFn) (lat lng : ℚ)
    (g : GeoRegion) (buffer : ℚ) : Except String Bool :=
  if g.type = .circle then
    match g.center, g.radius with
    | some c, some r =>
        if r = 0 then .ok false
        else .ok (decide (d lat lng c.2 c.1 ≤ r + buffer))
    | _, _ => .ok false
  else
    match g.coordinates with
    | some rings => polyTest d pip lat lng rings buffer
    | none => .ok false

/-! ## Sliding-window rate limiter (src/lib/rate-limit.ts)

The per-key timestamp list of the in-memory store is passed in and the
updated list returned; `now` (read from `Date.now()` in the source) is
explicit. -/

/-- The JS `Math.ceil(a / b)` for integer inputs (the source divides integer
millisecond quantities by 1000 before `Math.ceil`), written as
`-((-a) / b)` so that it evaluates by kernel reduction;
`jsCeilDiv_eq_ceil` below proves it is the ceiling of the exact
quotient. -/
def jsCeilDiv (a b : Int) : Int := -((-a) / b)

/-- A rate-limit configuration (`limit` requests per `windowSeconds`). -/
structure RateLimitConfig where
  limit : Nat
  windowSeconds : Nat
deriving DecidableEq, Repr

/-- The result record of `rateLimit`. -/
structure RateLimitResult where
  allowed : Bool
  remaining : Nat
  retryAfterSeconds : Int
deriving DecidableEq, Repr

/-- Function `rateLimit` from src/lib/rate-limit.ts, for one key: filter out
timestamps at or before `now - windowMs`, deny (recording nothing new)
with `retryAfterSeconds = Math.ceil((oldest + windowMs - now) / 1000)`
when the surviving count reaches the limit, otherwise record `now` and
allow.  `timestamps[0]` in the deny branch is modelled by `headI`
(the branch is only reached with a non-empty list when `limit ≥ 1`;
with `limit = 0` the source would compute `NaN` from `undefined`). -/
def rateLimit (config : RateLimitConfig) (now : Int) (timestamps : List Int) :
    RateLimitResult × List Int :=
  let windowMs : Int := (config.windowSeconds : Int) * 1000
  let cutoff := now - windowMs
  let ts := timestamps.filter (fun t => decide (cutoff < t))
  if config.limit ≤ ts.length then
    let oldest := ts.headI
    ({ allowed := false, remaining := 0,
       retryAfterSeconds := jsCeilDiv (oldest + windowMs - now) 1000 }, ts)
  else
    ({ allowed := true, remaining := config.limit - (ts.length + 1),
       retryAfterSeconds := 0 }, ts ++ [now])

/-! ## Vote casting (src/app/api/vote/[shareCode]/cast/route.ts)

The database's vote table is modelled as a `List Vote`; the `POST`
handler's gate checks and its `prisma.$transaction` (delete-then-insert,
atomic per its contract: on failure no partial effect) are embedded as a
pure function.  `writeOk` models whether the transactional write step
succeeds. -/

/-- A voter row (the fields the verified routes read or create). -/
structure Voter where
  id : String
  electionId : String
  email : String
  emailVerified : Bool := false
  deviceFingerprint : Option String := none
  regionId : Option String := none
  locationLat : Option ℚ := none
  locationLng : Option ℚ := none
deriving DecidableEq, Repr

/-- A vote row. -/
structure Vote where
  electionId : String
  voterId : String
  positionId : String
  candidateId : String
deriving DecidableEq, Repr

/-- Does a vote row belong to this (election, voter)?  The filter used by
`deleteMany({ where: { electionId, voterId } })` and `findMany`. -/
def Vote.isFor (v : Vote) (eid vid : String) : Bool :=
  decide (v.electionId = eid) && decide (v.voterId = vid)

/-- A parsed cast request body: `voterId` plus the submitted
`(positionId, candidateId)` pairs (zod guarantees at least one entry and
non-empty id strings; neither matters for the verified properties). -/
structure CastRequest where
  voterId : String
  votes : List (String × String)
deriving DecidableEq, Repr

/-- The distinct outcomes of the cast handler, carrying exactly the data
the corresponding response message interpolates. -/
inductive CastOutcome where
  | notVoting
  | voterNotFound
  | emailNotVerified
  | dupPosition
  | invalidPosition (positionId : String)
  | invalidCandidate (positionTitle : String)
  | updateNotAllowed
  | writeFailed
  | success (updated : Bool)
deriving DecidableEq, Repr

/-- The response message built from each outcome by the route (the
`NextResponse.json({ error: ... })` strings). -/
def CastOutcome.message : CastOutcome → String
  | .notVoting => "Voting is not currently open"
  | .voterNotFound => "Voter not found"
  | .emailNotVerified => "Email not verified"
  | .dupPosition => "Duplicate vote for the same position"
  | .invalidPosition pid => "Invalid position: " ++ pid
  | .invalidCandidate title => "Invalid candidate for position " ++ title
  | .updateNotAllowed => "You have already voted and vote updates are not allowed"
  | .writeFailed => "Internal server error"
  | .success true => "Votes updated successfully"
  | .success false => "Votes cast successfully"

/-- The ballot-validation loop of the cast route: walk the submitted votes
with the set of already-seen position ids; for each entry first reject a
duplicate position, then an unknown position, then an unknown candidate
(reporting the position's title). -/
def validateBallot (positions : List Position) :
    List (String × String) → List String → Option CastOutcome
  | [], _ => none
  | (pid, cid) :: rest, seen =>
    if pid ∈ seen then some .dupPosition
    else
      match positions.find? (fun p => decide (p.id = pid)) with
      | none => some (.invalidPosition pid)
      | some pos =>
        match pos.candidates.find? (fun c => decide (c.id = cid)) with
        | none => some (.invalidCandidate pos.title)
        | some _ => validateBallot positions rest (pid :: seen)

/-- The `POST` handler of the cast route (after rate limiting and body
parsing): phase gate, voter lookup (`findFirst` by id and electionId),
verification gate, ballot validation, update gate, then the transactional
delete-then-insert.  Returns the outcome and the resulting vote table. -/
def castVote (e : Election) (voters : List Voter) (votes : List Vote)
    (req : CastRequest) (now : Int) (writeOk : Bool) : CastOutcome × List Vote :=
  if getElectionPhase e now ≠ .voting then (.notVoting, votes)
  else
    match voters.find? (fun v => decide (v.id = req.voterId) && decide (v.electionId = e.id)) with
    | none => (.voterNotFound, votes)
    | some voter =>
      if ¬ voter.emailVerified then (.emailNotVerified, votes)
      else
        match validateBallot e.positions req.votes [] with
        | some err => (err, votes)
        | none =>
          let isUpdate : Bool := decide (0 < (votes.filter (fun v => v.isFor e.id voter.id)).length)
          if isUpdate ∧ ¬ e.allowVoteUpdate then (.updateNotAllowed, votes)
          else if writeOk then
            let kept := if isUpdate then votes.filter (fun v => ! v.isFor e.id voter.id) else votes
            (.success isUpdate,
             kept ++ req.votes.map (fun pc => Vote.mk e.id voter.id pc.1 pc.2))
          else (.writeFailed, votes)

/-- An entry the validation loop accepts (the two `find?` probes of the
loop succeed): its position belongs to the election and its candidate to
that position. -/
def entryValid (positions : List Position) (pc : String × String) : Prop :=
  ∃ pos, positions.find? (fun p => decide (p.id = pc.1)) = some pos
    ∧ (pos.candidates.find? (fun c => decide (c.id = pc.2))).isSome

/-! ## Voter registration (src/unnamed/part_007)

The `POST` registration handler: phase gate, duplicate-email check,
device-fingerprint check, location eligibility, required custom fields,
then voter creation.  `newId` stands for the id the database generates. -/

/-- JS truthiness of an optional string (`data.deviceFingerprint`):
present and non-empty. -/
def truthyStr : Option String → Bool
  | some s => decide (s ≠ "")
  | none => false

/-- JS `x || null` on an optional number: `0` is falsy and stored as null. -/
def jsOrNull (x : Option ℚ) : Option ℚ :=
  match x with
  | some v => if v = 0 then none else some v
  | none => none

/-- Is a required custom-field value missing or blank?
`!value || (typeof value === "string" && value.trim() === "")`. -/
def fieldBlank (vals : List (String × String)) (fid : String) : Bool :=
  match (vals.find? (fun kv => decide (kv.1 = fid))).map Prod.snd with
  | none => true
  | some s => decide (s.trim = "")

/-- The region loop of the registration handler: first region whose
geometry contains the coordinate wins; a thrown geometry error
propagates. -/
def firstMatch (d : DistFn) (pip : PipFn) (lat lng : ℚ) :
    List Region → Except String (Option Region)
  | [] => .ok none
  | r :: rs =>
    match isPointInRegion d pip lat lng r.geometry r.bufferMeters with
    | .error s => .error s
    | .ok true => .ok (some r)
    | .ok false => firstMatch d pip lat lng rs

/-- A parsed registration request body. -/
structure RegisterRequest where
  email : String
  customFieldValues : List (String × String) := []
  deviceFingerprint : Option String := none
  latitude : Option ℚ := none
  longitude : Option ℚ := none
deriving DecidableEq, Repr

/-- The distinct outcomes of the registration handler. -/
inductive RegOutcome where
  | notRegistrationPhase
  | alreadyRegistered (voterId : String) (emailVerified : Bool)
  | deviceAlreadyRegistered
  | locationRequired
  | notInAnyRegion
  | missingRequiredField (label : String)
  | geometryError (msg : String)
  | success (voter : Voter)
deriving DecidableEq, Repr

/-- The tail of the registration handler after the location step: required
custom-field loop (first required field with a blank value rejects), then
`prisma.voter.create` with the assigned region and the JS-coerced optional
fields. -/
def finishRegistration (e : Election) (voters : List Voter) (req : RegisterRequest)
    (newId : String) (assigned : Option String) : RegOutcome × List Voter :=
  match e.customFields.find? (fun f => f.isRequired && fieldBlank req.customFieldValues f.id) with
  | some f => (.missingRequiredField f.label, voters)
  | none =>
    let voter : Voter :=
      { id := newId
        electionId := e.id
        email := req.email
        emailVerified := false
        deviceFingerprint := if truthyStr req.deviceFingerprint then req.deviceFingerprint else none
        regionId := assigned
        locationLat := jsOrNull req.latitude
        locationLng := jsOrNull req.longitude }
    (.success voter, voters ++ [voter])

/-- The `POST` registration handler of src/unnamed/part_007 (after body
parsing), as a pure function over the voter table.  The device check runs
only when `securityLevel !== "casual"` **and** the request carries a truthy
`deviceFingerprint`; the location check runs only when `requireLocation`
is set **and** the election has at least one region. -/
def registerVoter (d : DistFn) (pip : PipFn) (e : Election) (voters : List Voter)
    (req : RegisterRequest) (now : Int) (newId : String) : RegOutcome × List Voter :=
  if getElectionPhase e now ≠ .registration then (.notRegistrationPhase, voters)
  else
    match voters.find? (fun v => decide (v.electionId = e.id) && decide (v.email = req.email)) with
    | some ex => (.alreadyRegistered ex.id ex.emailVerified, voters)
    | none =>
      if e.securityLevel ≠ .casual ∧ truthyStr req.deviceFingerprint ∧
          (voters.any fun v =>
            decide (v.electionId = e.id) && decide (v.deviceFingerprint = req.deviceFingerprint)) then
        (.deviceAlreadyRegistered, voters)
      else if e.requireLocation ∧ e.regions ≠ [] then
        match req.latitude, req.longitude with
        | some la, some lo =>
          match firstMatch d pip la lo e.regions with
          | .error msg => (.geometryError msg, voters)
          | .ok none => (.notInAnyRegion, voters)
          | .ok (some r) => finishRegistration e voters req newId (some r.id)
        | _, _ => (.locationRequired, voters)
      else finishRegistration e voters req newId none

/-- The timestamps surviving the discard step of `rateLimit`: entries
strictly newer than `now - windowMs`. -/
def survivors (config : RateLimitConfig) (now : Int) (ts : List Int) : List Int :=
  ts.filter (fun t => decide (now - (config.windowSeconds : Int) * 1000 < t))

/-! ## Concrete fixtures for closed evaluations -/

/-- The constant-zero distance function: agrees with the haversine whenever
the two endpoints coincide (`haversineDistance(p, p) = 0`), which is the
only value the closed evaluations below depend on. -/
def dZero : DistFn := fun _ _ _ _ => 0

/-- A point-in-polygon oracle that never matches (the closed evaluations
below never reach it or expect containment to fail). -/
def pipFalse : PipFn := fun _ _ => false

/-- Counterexample region for C6: a circle with radius `0` — falsy in JS,
so the source skips the circle branch entirely. -/
def c6Circle : GeoRegion := { type := .circle, center := some (0, 0), radius := some 0 }

/-- Failing input for C8: a polygon region whose single ring has one point
(fewer than 3). -/
def c8Poly : GeoRegion := { type := .polygon, coordinates := some [[(0, 0)]] }

/-- Counterexample election for C3 (auto mode, still in draft). -/
def c3EA : Election :=
  { id := "e3a", status := .draft, autoTransition := true, votingEnd := some 10 }

/-- Counterexample election for C3 (manual mode, status registration). -/
def c3EB : Election :=
  { id := "e3b", status := .registration, autoTransition := false, votingEnd := some 10 }

/-- Counterexample election for C4 (auto mode, open-ended voting window,
status still registration). -/
def c4E : Election :=
  { id := "e4", status := .registration, autoTransition := true, votingStart := some 10 }

/-- Counterexample election for C5 (status registration but auto mode with
`now` inside the voting window). -/
def c5E : Election :=
  { id := "e5", status := .registration, autoTransition := true,
    votingStart := some 0, votingEnd := some 100 }

/-- Election fixture for C1's witness: voting open, updates allowed, one
position with two candidates. -/
def c1E : Election :=
  { id := "e1", status := .voting, autoTransition := false, allowVoteUpdate := true,
    positions := [{ id := "p1", title := "President",
                    candidates := [{ id := "c1" }, { id := "c2" }] }] }

/-- Voter fixture for C1's witness. -/
def c1Voter : Voter := { id := "v1", electionId := "e1", email := "a@x", emailVerified := true }

/-- Pre-existing votes fixture for C1's witness: the voter already voted
`c1` on `p1`; an unrelated voter's vote is also present. -/
def c1Votes : List Vote :=
  [{ electionId := "e1", voterId := "v1", positionId := "p1", candidateId := "c1" },
   { electionId := "e1", voterId := "v9", positionId := "p1", candidateId := "c1" }]

/-- Election fixture for C2: voting open, one position with one candidate. -/
def c2E : Election :=
  { id := "e2", status := .voting, autoTransition := false,
    positions := [{ id := "p1", title := "President", candidates := [{ id := "c1" }] }] }

/-- Voter fixture for C2's counterexample. -/
def c2Voter : Voter := { id := "v1", electionId := "e2", email := "b@x", emailVerified := true }

/-- A distance function reporting 100 m everywhere (used to realize a
coordinate that matches no circle of radius 5). -/
def dFar : DistFn := fun _ _ _ _ => 100

/-- Election fixture for C7's counterexample: requires location but has no
regions, so the source skips the whole location check. -/
def c7E : Election :=
  { id := "e7", status := .registration, autoTransition := false, requireLocation := true }

/-- Registration request fixture for C7's counterexample. -/
def c7Req : RegisterRequest := { email := "v@x", latitude := some 1, longitude := some 2 }

/-- The voter record the C7 counterexample registration creates. -/
def c7Voter : Voter :=
  { id := "nv", electionId := "e7", email := "v@x", emailVerified := false,
    deviceFingerprint := none, regionId := none,
    locationLat := some 1, locationLng := some 2 }

/-- Election fixture for C7's witness: location required, one circular
region of radius 5 m around the origin, no buffer. -/
def c7WE : Election :=
  { id := "e7w", status := .registration, autoTransition := false, requireLocation := true,
    regions := [{ id := "r1",
                  geometry := { type := .circle, center := some (0, 0), radius := some 5 },
                  bufferMeters := 0 }] }

/-- Registration request fixture for C7's witness. -/
def c7WReq : RegisterRequest := { email := "w@x", latitude := some 1, longitude := some 2 }

/-- An arbitrary voter record for instantiating C7's rejection conjunct. -/
def c7WVoter : Voter := { id := "zz", electionId := "e7w", email := "w@x" }

/-- Election fixture for C10's witness: strict security, no location. -/
def c10E : Election :=
  { id := "eA", status := .registration, autoTransition := false, securityLevel := .strict }

/-- A previously registered voter of the same election with a recorded
device fingerprint, for C10's witness. -/
def c10Prior : Voter :=
  { id := "w0", electionId := "eA", email := "w@x", deviceFingerprint := some "dev1" }

/-! ## Theorems -/

/-- Claim C3, counterexample: the claim quantifies over *all* other fields,
but a draft election (even in auto mode) and a manual-mode election whose
status is `registration` both derive a non-`closed` phase at
`now = 20 > votingEnd = 10`. -/
theorem c3_counterexample :
    (c3EA.votingEnd = some 10 ∧ (10 : Int) < 20 ∧ getElectionPhase c3EA 20 ≠ .closed)
    ∧ (c3EB.votingEnd = some 10 ∧ (10 : Int) < 20 ∧ getElectionPhase c3EB 20 ≠ .closed) := by
  decide

/-- Claim C3 (amended): under auto-transition mode, for every election whose
status is neither `draft` nor `closed`, with `votingEnd` set and
`now > votingEnd`, the derived phase is `closed`, regardless of the
registration dates and `votingStart`. -/
theorem c3_closed_after_voting_end (e : Election) (now en : Int)
    (hauto : e.autoTransition = true) (hd : e.status ≠ .draft) (hc : e.status ≠ .closed)
    (hve : e.votingEnd = some en) (hnow : en < now) :
    getElectionPhase e now = .closed := by
  simp [getElectionPhase, hauto, hd, hc, afterOpt, hve, hnow]

/-- Witness for C3's amended theorem at a concrete election. -/
theorem c3_closed_after_voting_end_witness :
    getElectionPhase
      { id := "w3", status := .registration, autoTransition := true,
        registrationStart := some 0, registrationEnd := some 5,
        votingStart := some 6, votingEnd := some 10 } 20 = .closed :=
  c3_closed_after_voting_end _ 20 10 rfl (by decide) (by decide) rfl (by decide)

/-- Claim C4, counterexample: with `votingEnd` unset the in-window branch of
the source requires `status === "voting"`; an auto-mode election with
status `registration`, `votingStart = 10 ≤ now = 20` and no `votingEnd`
derives `registration`, not `voting`. -/
theorem c4_counterexample :
    c4E.autoTransition = true ∧ c4E.status ≠ .draft ∧ c4E.status ≠ .closed ∧
    c4E.votingStart = some 10 ∧ (10 : Int) ≤ 20 ∧ c4E.votingEnd = none ∧
    getElectionPhase c4E 20 ≠ .voting := by
  decide

/-- Claim C4 (amended): under auto-transition mode (status neither `draft`
nor `closed`), for every election with `votingStart` set and
`now ≥ votingStart`: if `votingEnd` is set and `now ≤ votingEnd` the
derived phase is `voting`; if `votingEnd` is unset the derived phase is
`voting` when the stored status is `voting`. -/
theorem c4_voting_window (e : Election) (now s : Int)
    (hauto : e.autoTransition = true) (hd : e.status ≠ .draft) (hc : e.status ≠ .closed)
    (hvs : e.votingStart = some s) (hs : s ≤ now) :
    (∀ en, e.votingEnd = some en → now ≤ en → getElectionPhase e now = .voting)
    ∧ (e.votingEnd = none → e.status = .voting → getElectionPhase e now = .voting) := by
  constructor
  · intro en hen hle
    have h1 : afterOpt now e.votingEnd = false := by
      simp only [afterOpt, hen, decide_eq_false_iff_not]
      omega
    have h2 : onOrAfterOpt now e.votingStart = true := by
      simp [onOrAfterOpt, hvs, hs]
    have h3 : onOrBeforeOpt now e.votingEnd = true := by
      simp [onOrBeforeOpt, hen, hle]
    simp [getElectionPhase, hauto, hd, hc, h1, h2, h3]
  · intro hen hv
    have h1 : afterOpt now e.votingEnd = false := by simp [afterOpt, hen]
    have h2 : onOrAfterOpt now e.votingStart = true := by
      simp [onOrAfterOpt, hvs, hs]
    have h3 : onOrBeforeOpt now e.votingEnd = false := by simp [onOrBeforeOpt, hen]
    simp [getElectionPhase, hauto, hd, hc, h1, h2, h3, hv]

/-- Witness for C4's amended theorem: both branches at concrete elections. -/
theorem c4_voting_window_witness :
    getElectionPhase
      { id := "w4a", status := .registration, autoTransition := true,
        votingStart := some 10, votingEnd := some 100 } 20 = .voting
    ∧ getElectionPhase
      { id := "w4b", status := .voting, autoTransition := true,
        votingStart := some 10 } 20 = .voting :=
  ⟨(c4_voting_window _ 20 10 rfl (by decide) (by decide) rfl (by decide)).1 100 rfl (by decide),
   (c4_voting_window _ 20 10 rfl (by decide) (by decide) rfl (by decide)).2 rfl rfl⟩

/-- Claim C5, counterexample: in auto-transition mode the schedule overrides
the stored status, so an election with status `registration` and
`votingStart = 0 ≤ now = 50 ≤ votingEnd = 100` derives `voting`. -/
theorem c5_counterexample :
    c5E.status = .registration ∧ c5E.votingStart = some 0 ∧ c5E.votingEnd = some 100 ∧
    (0 : Int) ≤ 50 ∧ (50 : Int) ≤ 100 ∧ getElectionPhase c5E 50 = .voting := by
  decide

/-- Claim C5 (amended): in manual mode (`autoTransition` false), for every
election whose status is `registration`, the derived phase is never
`voting`, even when `now` lies within `[votingStart, votingEnd]`. -/
theorem c5_manual_registration_never_voting (e : Election) (now : Int)
    (hm : e.autoTransition = false) (hs : e.status = .registration) :
    getElectionPhase e now ≠ .voting := by
  have hd : e.status ≠ .draft := by simp [hs]
  have hc : e.status ≠ .closed := by simp [hs]
  unfold getElectionPhase
  rw [if_neg hd, if_neg hc, if_neg (by simp [hm]), if_pos hs]
  split
  · simp
  · split <;> simp

/-- Witness for C5's amended theorem at a concrete election with `now`
inside the voting window. -/
theorem c5_manual_registration_never_voting_witness :
    getElectionPhase
      { id := "w5", status := .registration, autoTransition := false,
        votingStart := some 0, votingEnd := some 100 } 50 ≠ .voting :=
  c5_manual_registration_never_voting _ 50 rfl rfl

/-- Lemma: `jsCeilDiv` is `Math.ceil` of the exact quotient. -/
theorem jsCeilDiv_eq_ceil (a : Int) (b : Nat) :
    jsCeilDiv a b = Int.ceil ((a : ℚ) / (b : ℚ)) := by
  rw [jsCeilDiv, show ((a : ℚ) / (b : ℚ)) = -(((-a : ℤ) : ℚ) / (b : ℚ)) by push_cast; ring,
    Int.ceil_neg, Rat.floor_intCast_div_natCast]

/-- Lemma: `jsCeilDiv` of a positive numerator by 1000 is strictly positive. -/
theorem jsCeilDiv_pos (a : Int) (ha : 0 < a) : 0 < jsCeilDiv a 1000 := by
  unfold jsCeilDiv
  omega

/-- Claim C9: the rate limiter is a sliding window — each call first
discards instants at or before `now - windowMs`; if at least `limit`
survive, the call is denied with
`retryAfterSeconds = ceil((oldestRemaining + windowMs - now)/1000)`,
which is strictly positive, and nothing new is recorded; otherwise `now`
is appended and the call is allowed.  With `limit = 3`,
`windowSeconds = 60`, three calls inside the window are allowed, a fourth
is denied with a positive retry-after and no state change, and a call
after the window has elapsed from the first instant is allowed again. -/
theorem c9_sliding_window (config : RateLimitConfig) (now : Int) (ts0 : List Int)
    (hlim : 0 < config.limit) :
    ((config.limit ≤ (survivors config now ts0).length →
        rateLimit config now ts0
          = ({ allowed := false, remaining := 0,
               retryAfterSeconds :=
                 jsCeilDiv ((survivors config now ts0).headI
                   + (config.windowSeconds : Int) * 1000 - now) 1000 },
             survivors config now ts0)
        ∧ 0 < (rateLimit config now ts0).1.retryAfterSeconds)
      ∧ ((survivors config now ts0).length < config.limit →
        rateLimit config now ts0
          = ({ allowed := true,
               remaining := config.limit - ((survivors config now ts0).length + 1),
               retryAfterSeconds := 0 },
             survivors config now ts0 ++ [now])))
    ∧ (rateLimit ⟨3, 60⟩ 0 [] = ({ allowed := true, remaining := 2, retryAfterSeconds := 0 }, [0])
      ∧ rateLimit ⟨3, 60⟩ 10 [0]
          = ({ allowed := true, remaining := 1, retryAfterSeconds := 0 }, [0, 10])
      ∧ rateLimit ⟨3, 60⟩ 20 [0, 10]
          = ({ allowed := true, remaining := 0, retryAfterSeconds := 0 }, [0, 10, 20])
      ∧ (rateLimit ⟨3, 60⟩ 30 [0, 10, 20]).1.allowed = false
      ∧ 0 < (rateLimit ⟨3, 60⟩ 30 [0, 10, 20]).1.retryAfterSeconds
      ∧ (rateLimit ⟨3, 60⟩ 30 [0, 10, 20]).2 = [0, 10, 20]
      ∧ (rateLimit ⟨3, 60⟩ 60001 [0, 10, 20]).1.allowed = true) := by
  have hsv : ∀ (c : RateLimitConfig) (n : Int) (l : List Int),
      l.filter (fun t => decide (n - (c.windowSeconds : Int) * 1000 < t)) = survivors c n l :=
    fun _ _ _ => rfl
  constructor
  · constructor
    · intro h
      have heq : rateLimit config now ts0
          = ({ allowed := false, remaining := 0,
               retryAfterSeconds :=
                 jsCeilDiv ((survivors config now ts0).headI
                   + (config.windowSeconds : Int) * 1000 - now) 1000 },
             survivors config now ts0) := by
        simp only [rateLimit, hsv]
        rw [if_pos h]
      refine ⟨heq, ?_⟩
      rw [heq]
      have hne : survivors config now ts0 ≠ [] := by
        intro hnil
        rw [hnil] at h
        simp only [List.length_nil] at h
        omega
      cases hcons : survivors config now ts0 with
      | nil => exact absurd hcons hne
      | cons a rest =>
        have hamem : a ∈ survivors config now ts0 := by
          rw [hcons]; exact List.mem_cons_self a rest
        have hsurv : now - (config.windowSeconds : Int) * 1000 < a :=
          of_decide_eq_true (List.mem_filter.mp hamem).2
        have hpos : 0 < a + (config.windowSeconds : Int) * 1000 - now := by omega
        simpa [hcons, List.headI] using jsCeilDiv_pos _ hpos
    · intro h
      simp only [rateLimit, hsv]
      rw [if_neg (by omega)]
  · refine ⟨by decide, by decide, by decide, ?_, ?_, ?_, ?_⟩ <;> decide

/-- Witness for C9 at a concrete denied call: four instants already inside
the window, limit 3. -/
theorem c9_sliding_window_witness :
    rateLimit ⟨3, 60⟩ 40 [0, 10, 20]
      = ({ allowed := false, remaining := 0, retryAfterSeconds := jsCeilDiv 59960 1000 },
         [0, 10, 20])
    ∧ 0 < (rateLimit ⟨3, 60⟩ 40 [0, 10, 20]).1.retryAfterSeconds :=
  (c9_sliding_window ⟨3, 60⟩ 40 [0, 10, 20] (by decide)).1.1 (by decide)

/-- The edge scan of the polygon buffer loop succeeds iff some edge of the
ring — a pair of consecutive positions — is within the buffer. -/
theorem edgeWithinBuffer_iff (d : DistFn) (lat lng buffer : ℚ) (ring : List Coord) :
    edgeWithinBuffer d lat lng buffer ring = true ↔
      ∃ pr ∈ ring.zip ring.tail,
        distanceToSegment d lat lng pr.1.2 pr.1.1 pr.2.2 pr.2.1 ≤ buffer := by
  induction ring with
  | nil => simp [edgeWithinBuffer]
  | cons c1 rest ih =>
    cases rest with
    | nil => simp [edgeWithinBuffer]
    | cons c2 rest2 =>
      simp only [edgeWithinBuffer, Bool.or_eq_true, decide_eq_true_eq, ih, List.tail_cons,
        List.zip_cons_cons, List.mem_cons]
      constructor
      · rintro (h | ⟨pr, hm, hd⟩)
        · exact ⟨(c1, c2), Or.inl rfl, h⟩
        · exact ⟨pr, Or.inr hm, hd⟩
      · rintro ⟨pr, hm | hm, hd⟩
        · rw [hm] at hd
          exact Or.inl hd
        · exact Or.inr ⟨pr, hm, hd⟩

/-- Rings that are long enough and closed pass turf's `polygon()`
validation. -/
theorem ringsCheck_ok (rings : List (List Coord))
    (h : ∀ ring ∈ rings, 4 ≤ ring.length ∧ ring.getLast? = ring.head?) :
    ringsCheck rings = .ok () := by
  induction rings with
  | nil => rfl
  | cons r rs ih =>
    obtain ⟨hlen, hcl⟩ := h r (List.mem_cons_self _ _)
    have hr : ringCheck r = .ok () := by
      unfold ringCheck
      rw [if_neg (by omega), if_neg (by simp [hcl])]
    simp only [ringsCheck, hr]
    exact ih (fun ring hm => h ring (List.mem_cons_of_mem _ hm))

/-- Claim C6, counterexample: a circle region with `radius = 0` is skipped
by the source's truthiness guard (`geometry.center && geometry.radius`),
so the point at the circle's center — at haversine distance 0, which is
`≤ radius + bufferMeters = 10` — is reported outside.  `dZero` agrees with
the haversine at coincident endpoints, the only evaluation this input
performs. -/
theorem c6_counterexample :
    c6Circle.type = .circle ∧ c6Circle.center = some (0, 0) ∧ c6Circle.radius = some 0 ∧
    dZero 0 0 0 0 ≤ 0 + 10 ∧
    isPointInRegion dZero pipFalse 0 0 c6Circle 10 = .ok false := by
  refine ⟨rfl, rfl, rfl, by norm_num [dZero], rfl⟩

/-- Claim C6 (amended): geofence membership, for regions the engine accepts
without throwing — a circle with a present center and *nonzero* radius, or
a polygon/rectangle whose rings all pass turf's `polygon()` validation
(at least 4 positions each and closed: last position equal to the first).
For the circle the result is true iff the measured distance from the point
to the center is `≤ radius + bufferMeters` (boundary inclusive); for the
polygon/rectangle it is true iff the point-in-polygon test holds on the
rings, or `bufferMeters > 0` and some edge of the outer ring is within
`bufferMeters` by the clamped-parametric-projection segment distance;
with `bufferMeters = 0` the test is strict containment only.  The
haversine kernel and the turf point-in-polygon test are the abstracted
parameters `d` and `pip`. -/
theorem c6_geofence (d : DistFn) (pip : PipFn) (lat lng buffer : ℚ) (g : GeoRegion) :
    (∀ c r, g.type = .circle → g.center = some c → g.radius = some r → r ≠ 0 →
      (isPointInRegion d pip lat lng g buffer = .ok true ↔ d lat lng c.2 c.1 ≤ r + buffer))
    ∧ (∀ rings, g.type ≠ .circle → g.coordinates = some rings →
        (∀ ring ∈ rings, 4 ≤ ring.length ∧ ring.getLast? = ring.head?) →
      (isPointInRegion d pip lat lng g buffer = .ok true ↔
        (pip (lng, lat) rings = true ∨
          (0 < buffer ∧ ∃ pr ∈ rings.headI.zip rings.headI.tail,
            distanceToSegment d lat lng pr.1.2 pr.1.1 pr.2.2 pr.2.1 ≤ buffer)))) := by
  constructor
  · intro c r htype hc hr hrne
    simp [isPointInRegion, htype, hc, hr, hrne]
  · intro rings htype hco hvalid
    have hck : ringsCheck rings = .ok () := ringsCheck_ok rings hvalid
    simp only [isPointInRegion, if_neg htype, hco]
    unfold polyTest
    rw [hck]
    dsimp only
    by_cases hpip : pip (lng, lat) rings = true
    · simp [hpip]
    · have hpipf : pip (lng, lat) rings = false := by
        simpa using hpip
      rw [if_neg hpip]
      by_cases hb : 0 < buffer
      · rw [if_pos hb]
        cases rings with
        | nil =>
          rw [show (([] : List (List Coord)).headI) = ([] : List Coord) from rfl]
          simp [hpipf]
        | cons ring rest =>
          simp [hpipf, hb, List.headI, edgeWithinBuffer_iff]
      · rw [if_neg hb]
        simp [hpipf, hb]

/-- Witness for C6's amended theorem: both branches at concrete inputs —
a point at the center of a radius-5 circle with buffer 10, and a point
whose first rectangle edge is within a positive buffer. -/
theorem c6_geofence_witness :
    isPointInRegion dZero pipFalse 0 0
      { type := .circle, center := some (0, 0), radius := some 5 } 10 = .ok true
    ∧ isPointInRegion dZero pipFalse 0 0
      { type := .rectangle,
        coordinates := some [[(0, 0), (1, 0), (1, 1), (0, 1), (0, 0)]] } 2 = .ok true :=
  ⟨((c6_geofence dZero pipFalse 0 0 10 _).1 (0, 0) 5 rfl rfl rfl (by norm_num)).mpr
      (by norm_num [dZero]),
   ((c6_geofence dZero pipFalse 0 0 2 _).2 [[(0, 0), (1, 0), (1, 1), (0, 1), (0, 0)]]
      (by decide) rfl (by decide)).mpr
      (Or.inr ⟨by norm_num, ⟨((0 : ℚ), (0 : ℚ)), ((1 : ℚ), (0 : ℚ))⟩, by decide, by decide⟩)⟩

/-- Claim C8 (code bug): on a polygon region whose ring has fewer than 3
points, `isPointInRegion` is not total — the turf `polygon()` helper
rejects any ring shorter than 4 positions by throwing, and that error
escapes the engine (the route's catch-all turns it into a 500) instead of
the specified `false`. -/
theorem c8_degenerate_ring_throws :
    isPointInRegion dZero pipFalse 0 0 c8Poly 0
      = .error "Each LinearRing of a Polygon must have 4 or more Positions." := by
  rfl

/-- Every vote row built from the submission belongs to the voter:
filtering for the voter keeps them all. -/
theorem map_filter_isFor (eid vid : String) (l : List (String × String)) :
    (l.map fun pc => Vote.mk eid vid pc.1 pc.2).filter (fun v => v.isFor eid vid)
      = l.map fun pc => Vote.mk eid vid pc.1 pc.2 := by
  rw [List.filter_eq_self]
  intro a ha
  obtain ⟨pc, _, rfl⟩ := List.mem_map.mp ha
  simp [Vote.isFor]

/-- Filtering the submission's rows for other voters leaves nothing. -/
theorem map_filter_not_isFor (eid vid : String) (l : List (String × String)) :
    (l.map fun pc => Vote.mk eid vid pc.1 pc.2).filter (fun v => ! v.isFor eid vid) = [] := by
  rw [List.filter_eq_nil_iff]
  intro a ha
  obtain ⟨pc, _, rfl⟩ := List.mem_map.mp ha
  simp [Vote.isFor]

/-- The voter's rows are gone after the delete step. -/
theorem filter_not_then_isFor (eid vid : String) (l : List Vote) :
    (l.filter (fun v => ! v.isFor eid vid)).filter (fun v => v.isFor eid vid) = [] := by
  rw [List.filter_filter, List.filter_eq_nil_iff]
  intro a _
  cases h : a.isFor eid vid <;> simp [h]

/-- The delete step is idempotent on other voters' rows. -/
theorem filter_not_isFor_idem (eid vid : String) (l : List Vote) :
    (l.filter (fun v => ! v.isFor eid vid)).filter (fun v => ! v.isFor eid vid)
      = l.filter (fun v => ! v.isFor eid vid) := by
  rw [List.filter_filter]
  simp only [Bool.and_self]

/-- The validation loop never produces a success outcome. -/
theorem validateBallot_not_success (positions : List Position)
    (l : List (String × String)) (seen : List String) (upd : Bool) :
    validateBallot positions l seen ≠ some (.success upd) := by
  induction l generalizing seen with
  | nil => simp [validateBallot]
  | cons pc rest ih =>
    obtain ⟨pid, cid⟩ := pc
    simp only [validateBallot]
    split
    · simp
    · split
      · simp
      · split
        · simp
        · exact ih _

/-- Evaluation of the cast handler when every gate up to ballot validation
passes: only the update gate and the transactional write remain. -/
theorem castVote_eq (e : Election) (voters : List Voter) (votes : List Vote)
    (req : CastRequest) (now : Int) (writeOk : Bool) (voter : Voter)
    (hphase : getElectionPhase e now = .voting)
    (hv : voters.find? (fun v => decide (v.id = req.voterId) && decide (v.electionId = e.id))
            = some voter)
    (hver : voter.emailVerified = true)
    (hval : validateBallot e.positions req.votes [] = none) :
    castVote e voters votes req now writeOk =
      if (decide (0 < (votes.filter (fun v => v.isFor e.id voter.id)).length) : Bool)
          ∧ ¬ e.allowVoteUpdate
      then (.updateNotAllowed, votes)
      else if writeOk then
        (.success (decide (0 < (votes.filter (fun v => v.isFor e.id voter.id)).length)),
         (if decide (0 < (votes.filter (fun v => v.isFor e.id voter.id)).length)
          then votes.filter (fun v => ! v.isFor e.id voter.id) else votes)
           ++ req.votes.map (fun pc => Vote.mk e.id voter.id pc.1 pc.2))
      else (.writeFailed, votes) := by
  unfold castVote
  rw [if_neg (show ¬ getElectionPhase e now ≠ Phase.voting from fun hne => hne hphase), hv]
  dsimp only
  rw [if_neg (show ¬ ¬ voter.emailVerified = true by simp [hver]), hval]

/-- Any rejected (non-`success`) cast leaves the vote table unchanged. -/
theorem castVote_cases (e : Election) (voters : List Voter) (votes : List Vote)
    (req : CastRequest) (now : Int) (writeOk : Bool) :
    (castVote e voters votes req now writeOk).2 = votes
    ∨ ∃ upd, (castVote e voters votes req now writeOk).1 = .success upd := by
  unfold castVote
  split
  · exact Or.inl rfl
  · split
    · exact Or.inl rfl
    · split
      · exact Or.inl rfl
      · split
        · exact Or.inl rfl
        · dsimp only
          split
          · exact Or.inl rfl
          · split
            · exact Or.inr ⟨_, rfl⟩
            · exact Or.inl rfl

/-- Claim C1: vote casting is all-or-nothing.  For the voter the request
resolves to, a successful cast leaves the voter's stored votes for the
election equal to exactly the submitted (position, candidate) pairs (any
prior votes having been deleted inside the same transaction) while other
voters' rows are untouched; any non-success outcome — including a failure
of the transactional write step after all gates passed — leaves the vote
table fully intact. -/
theorem c1_atomic_cast (e : Election) (voters : List Voter) (votes : List Vote)
    (req : CastRequest) (now : Int) (writeOk : Bool) (voter : Voter)
    (hv : voters.find? (fun v => decide (v.id = req.voterId) && decide (v.electionId = e.id))
            = some voter) :
    (∀ upd, (castVote e voters votes req now writeOk).1 = .success upd →
        (castVote e voters votes req now writeOk).2.filter (fun v => v.isFor e.id voter.id)
          = req.votes.map (fun pc => Vote.mk e.id voter.id pc.1 pc.2)
      ∧ (castVote e voters votes req now writeOk).2.filter (fun v => ! v.isFor e.id voter.id)
          = votes.filter (fun v => ! v.isFor e.id voter.id))
    ∧ ((∀ upd, (castVote e voters votes req now writeOk).1 ≠ .success upd) →
        (castVote e voters votes req now writeOk).2 = votes) := by
  constructor
  · intro upd hupd
    by_cases hphase : getElectionPhase e now = .voting
    case neg =>
      have hc : castVote e voters votes req now writeOk = (.notVoting, votes) := by
        unfold castVote
        rw [if_pos hphase]
      rw [hc] at hupd
      exact absurd hupd (by simp)
    by_cases hver : voter.emailVerified = true
    case neg =>
      have hc : castVote e voters votes req now writeOk = (.emailNotVerified, votes) := by
        unfold castVote
        rw [if_neg (show ¬ getElectionPhase e now ≠ Phase.voting from fun hne => hne hphase), hv]
        dsimp only
        rw [if_pos hver]
      rw [hc] at hupd
      exact absurd hupd (by simp)
    cases hval : validateBallot e.positions req.votes [] with
    | some err =>
      have hc : castVote e voters votes req now writeOk = (err, votes) := by
        unfold castVote
        rw [if_neg (show ¬ getElectionPhase e now ≠ Phase.voting from fun hne => hne hphase), hv]
        dsimp only
        rw [if_neg (show ¬ ¬ voter.emailVerified = true by simp [hver]), hval]
      rw [hc] at hupd
      have herr : err = .success upd := hupd
      rw [herr] at hval
      exact absurd hval (validateBallot_not_success _ _ _ _)
    | none =>
      rw [castVote_eq e voters votes req now writeOk voter hphase hv hver hval] at hupd ⊢
      by_cases hgate : (decide (0 < (votes.filter (fun v => v.isFor e.id voter.id)).length) : Bool)
          ∧ ¬ e.allowVoteUpdate
      · rw [if_pos hgate] at hupd
        exact absurd hupd (by simp)
      · rw [if_neg hgate] at hupd ⊢
        by_cases hw : writeOk = true
        · rw [if_pos hw] at hupd ⊢
          cases hlen : decide (0 < (votes.filter (fun v => v.isFor e.id voter.id)).length) with
          | false =>
            have hnil : votes.filter (fun v => v.isFor e.id voter.id) = [] := by
              rw [← List.length_eq_zero]
              have := of_decide_eq_false hlen
              omega
            refine ⟨?_, ?_⟩ <;>
              simp [List.filter_append, hnil, map_filter_isFor, map_filter_not_isFor]
          | true =>
            refine ⟨?_, ?_⟩ <;>
              simp [List.filter_append, filter_not_then_isFor, filter_not_isFor_idem,
                map_filter_isFor, map_filter_not_isFor]
        · rw [if_neg hw] at hupd
          exact absurd hupd (by simp)
  · intro hns
    rcases castVote_cases e voters votes req now writeOk with h | ⟨upd, h⟩
    · exact h
    · exact absurd h (hns upd)

/-- Witness for C1 at concrete inputs: a successful update replaces the
voter's prior vote by the submitted pair and leaves the other voter's row
alone; the same request with a failing write leaves the table unchanged. -/
theorem c1_atomic_cast_witness :
    ((castVote c1E [c1Voter] c1Votes { voterId := "v1", votes := [("p1", "c2")] } 50 true).2
        = [{ electionId := "e1", voterId := "v9", positionId := "p1", candidateId := "c1" },
           { electionId := "e1", voterId := "v1", positionId := "p1", candidateId := "c2" }])
    ∧ (castVote c1E [c1Voter] c1Votes { voterId := "v1", votes := [("p1", "c2")] } 50 false).2
        = c1Votes := by
  constructor
  · have h := (c1_atomic_cast c1E [c1Voter] c1Votes
      { voterId := "v1", votes := [("p1", "c2")] } 50 true c1Voter (by decide)).1 true (by decide)
    decide
  · exact (c1_atomic_cast c1E [c1Voter] c1Votes
      { voterId := "v1", votes := [("p1", "c2")] } 50 false c1Voter (by decide)).2 (by decide)

/-- The validation loop walks past a prefix of accepted entries with
pairwise-distinct position ids, accumulating their ids into `seen`. -/
theorem validateBallot_append (positions : List Position)
    (good rest : List (String × String)) (seen : List String)
    (hvalid : ∀ pc ∈ good, entryValid positions pc)
    (hfresh : ∀ pc ∈ good, pc.1 ∉ seen)
    (hnodup : (good.map Prod.fst).Nodup) :
    validateBallot positions (good ++ rest) seen
      = validateBallot positions rest ((good.map Prod.fst).reverse ++ seen) := by
  induction good generalizing seen with
  | nil => simp
  | cons pc good' ih =>
    obtain ⟨pid, cid⟩ := pc
    obtain ⟨pos, hpos, hcand⟩ := hvalid (pid, cid) (List.mem_cons_self _ _)
    obtain ⟨c, hc⟩ := Option.isSome_iff_exists.mp hcand
    dsimp only at hpos hc
    have hmem : pid ∉ seen := hfresh (pid, cid) (List.mem_cons_self _ _)
    have hpidgood : pid ∉ good'.map Prod.fst := by
      have h := hnodup
      simp only [List.map_cons, List.nodup_cons] at h
      exact h.1
    rw [List.cons_append]
    simp only [validateBallot]
    rw [if_neg hmem, hpos]
    dsimp only
    rw [hc]
    dsimp only
    have hvalid' : ∀ pc ∈ good', entryValid positions pc :=
      fun pc h => hvalid pc (List.mem_cons_of_mem _ h)
    have hfresh' : ∀ pc ∈ good', pc.1 ∉ (pid :: seen) := by
      intro pc h
      simp only [List.mem_cons, not_or]
      refine ⟨fun heq => hpidgood (heq ▸ List.mem_map_of_mem Prod.fst h), ?_⟩
      exact hfresh pc (List.mem_cons_of_mem _ h)
    have hnodup' : (good'.map Prod.fst).Nodup := by
      simp only [List.map_cons, List.nodup_cons] at hnodup
      exact hnodup.2
    rw [ih (pid :: seen) hvalid' hfresh' hnodup']
    congr 1
    simp [List.reverse_cons, List.append_assoc]

/-- The validation loop at the first offending entry: a duplicate position
id rejects with the fixed duplicate message, an unknown position rejects
reporting that position id, an unknown candidate rejects reporting the
owning position's title. -/
theorem validateBallot_step (positions : List Position) (pid cid : String)
    (rest : List (String × String)) (seen : List String) :
    (pid ∈ seen → validateBallot positions ((pid, cid) :: rest) seen = some .dupPosition)
    ∧ (pid ∉ seen → positions.find? (fun p => decide (p.id = pid)) = none →
        validateBallot positions ((pid, cid) :: rest) seen = some (.invalidPosition pid))
    ∧ (∀ pos, pid ∉ seen → positions.find? (fun p => decide (p.id = pid)) = some pos →
        pos.candidates.find? (fun c => decide (c.id = cid)) = none →
        validateBallot positions ((pid, cid) :: rest) seen
          = some (.invalidCandidate pos.title)) := by
  refine ⟨?_, ?_, ?_⟩
  · intro h
    simp [validateBallot, h]
  · intro h hf
    simp [validateBallot, h, hf]
  · intro pos h hf hc
    simp [validateBallot, h, hf, hc]

/-- A ballot that fails validation is rejected with the vote table
untouched, wherever in the gate pipeline the request stops. -/
theorem castVote_validation_reject (e : Election) (voters : List Voter) (votes : List Vote)
    (req : CastRequest) (now : Int) (writeOk : Bool) (err : CastOutcome)
    (hval : validateBallot e.positions req.votes [] = some err) :
    (castVote e voters votes req now writeOk).2 = votes
    ∧ ∀ upd, (castVote e voters votes req now writeOk).1 ≠ .success upd := by
  by_cases hphase : getElectionPhase e now ≠ .voting
  · have hc : castVote e voters votes req now writeOk = (.notVoting, votes) := by
      unfold castVote
      rw [if_pos hphase]
    rw [hc]
    exact ⟨rfl, by simp⟩
  · cases hfind : voters.find?
        (fun v => decide (v.id = req.voterId) && decide (v.electionId = e.id)) with
    | none =>
      have hc : castVote e voters votes req now writeOk = (.voterNotFound, votes) := by
        unfold castVote
        rw [if_neg hphase, hfind]
      rw [hc]
      exact ⟨rfl, by simp⟩
    | some voter =>
      by_cases hver : ¬ voter.emailVerified = true
      · have hc : castVote e voters votes req now writeOk = (.emailNotVerified, votes) := by
          unfold castVote
          rw [if_neg hphase, hfind]
          dsimp only
          rw [if_pos hver]
        rw [hc]
        exact ⟨rfl, by simp⟩
      · have hc : castVote e voters votes req now writeOk = (err, votes) := by
          unfold castVote
          rw [if_neg hphase, hfind]
          dsimp only
          rw [if_neg hver, hval]
        rw [hc]
        refine ⟨rfl, fun upd h => ?_⟩
        have herr : err = .success upd := h
        rw [herr] at hval
        exact validateBallot_not_success _ _ _ upd hval

/-- Claim C2, counterexample: a submission with two entries for the same
position is rejected before any write, but the rejection — the fixed
message `Duplicate vote for the same position` — does not report the
offending id (`p1` is not a substring of it), contradicting the claim
that the first offending id is reported. -/
theorem c2_counterexample :
    validateBallot c2E.positions [("p1", "c1"), ("p1", "c1")] [] = some .dupPosition
    ∧ castVote c2E [c2Voter] []
        { voterId := "v1", votes := [("p1", "c1"), ("p1", "c1")] } 50 true
        = (.dupPosition, [])
    ∧ ¬ ("p1".toList <:+: (CastOutcome.dupPosition).message.toList) := by
  refine ⟨by decide, by decide, by decide⟩

/-- Claim C2 (amended): for every cast request, ballot validation rejects —
before any vote row is written or deleted — any submission whose first
offending entry (after a prefix of accepted, pairwise-distinct entries)
repeats an earlier position id, references a position not in the election,
or references a candidate not in that position; the rejection identifies
the first violation found (a fixed no-id message for a duplicate position,
the offending position id for an unknown position, the owning position's
title for an unknown candidate) and leaves the voter's existing votes
unchanged. -/
theorem c2_ballot_validation (e : Election) (voters : List Voter) (votes : List Vote)
    (req : CastRequest) (now : Int) (writeOk : Bool)
    (good : List (String × String)) (pid cid : String) (rest : List (String × String))
    (hsplit : req.votes = good ++ (pid, cid) :: rest)
    (hvalid : ∀ pc ∈ good, entryValid e.positions pc)
    (hnodup : (good.map Prod.fst).Nodup) :
    ((pid ∈ good.map Prod.fst →
        validateBallot e.positions req.votes [] = some .dupPosition)
      ∧ (pid ∉ good.map Prod.fst →
          e.positions.find? (fun p => decide (p.id = pid)) = none →
          validateBallot e.positions req.votes [] = some (.invalidPosition pid))
      ∧ (∀ pos, pid ∉ good.map Prod.fst →
          e.positions.find? (fun p => decide (p.id = pid)) = some pos →
          pos.candidates.find? (fun c => decide (c.id = cid)) = none →
          validateBallot e.positions req.votes [] = some (.invalidCandidate pos.title)))
    ∧ (∀ err, validateBallot e.positions req.votes [] = some err →
        (castVote e voters votes req now writeOk).2 = votes
        ∧ ∀ upd, (castVote e voters votes req now writeOk).1 ≠ .success upd) := by
  have hskip : validateBallot e.positions req.votes []
      = validateBallot e.positions ((pid, cid) :: rest)
          ((good.map Prod.fst).reverse ++ ([] : List String)) := by
    rw [hsplit]
    exact validateBallot_append e.positions good _ [] hvalid (by simp) hnodup
  have hseen : ∀ q : String,
      q ∈ (good.map Prod.fst).reverse ++ ([] : List String) ↔ q ∈ good.map Prod.fst := by
    intro q
    simp
  refine ⟨⟨?_, ?_, ?_⟩, ?_⟩
  · intro hdup
    rw [hskip]
    exact (validateBallot_step _ pid cid rest _).1 ((hseen pid).mpr hdup)
  · intro hfresh hf
    rw [hskip]
    exact (validateBallot_step _ pid cid rest _).2.1 (fun h => hfresh ((hseen pid).mp h)) hf
  · intro pos hfresh hf hc
    rw [hskip]
    exact (validateBallot_step _ pid cid rest _).2.2 pos (fun h => hfresh ((hseen pid).mp h)) hf hc
  · intro err herr
    exact castVote_validation_reject e voters votes req now writeOk err herr

/-- Witness for C2's amended theorem at a concrete request: the second
entry references an unknown position and the loop reports that id. -/
theorem c2_ballot_validation_witness :
    validateBallot c2E.positions [("p1", "c1"), ("p2", "c9")] []
      = some (.invalidPosition "p2") :=
  ((c2_ballot_validation c2E [] [] { voterId := "v1", votes := [("p1", "c1"), ("p2", "c9")] }
      0 true [("p1", "c1")] "p2" "c9" [] rfl
      (by
        intro pc hpc
        rw [List.mem_singleton] at hpc
        subst hpc
        exact ⟨{ id := "p1", title := "President", candidates := [{ id := "c1" }] }, rfl, rfl⟩)
      (by decide)).1).2.1 (by decide) (by decide)

/-- A created voter carries exactly the region the location step assigned. -/
theorem finishRegistration_region (e : Election) (voters : List Voter) (req : RegisterRequest)
    (newId : String) (assigned : Option String) (v : Voter)
    (h : (finishRegistration e voters req newId assigned).1 = .success v) :
    v.regionId = assigned := by
  unfold finishRegistration at h
  split at h
  · exact absurd h (by simp)
  · dsimp only at h
    simp only [RegOutcome.success.injEq] at h
    rw [← h]

/-- The tail of the registration pipeline never raises a location error. -/
theorem finishRegistration_not_location (e : Election) (voters : List Voter)
    (req : RegisterRequest) (newId : String) (assigned : Option String) :
    (finishRegistration e voters req newId assigned).1 ≠ .notInAnyRegion
    ∧ (finishRegistration e voters req newId assigned).1 ≠ .locationRequired := by
  unfold finishRegistration
  split
  · exact ⟨by simp, by simp⟩
  · dsimp only
    exact ⟨by simp, by simp⟩

/-- The tail of the registration pipeline never raises the device error. -/
theorem finishRegistration_not_device (e : Election) (voters : List Voter)
    (req : RegisterRequest) (newId : String) (assigned : Option String) :
    (finishRegistration e voters req newId assigned).1 ≠ .deviceAlreadyRegistered := by
  unfold finishRegistration
  split
  · simp
  · dsimp only
    simp

/-- With `requireLocation` false the location check is skipped entirely:
no location rejection can occur and a created voter has no region. -/
theorem registerVoter_no_location_check (d : DistFn) (pip : PipFn) (e : Election)
    (voters : List Voter) (req : RegisterRequest) (now : Int) (newId : String)
    (hfalse : e.requireLocation = false) :
    ((registerVoter d pip e voters req now newId).1 ≠ .notInAnyRegion
     ∧ (registerVoter d pip e voters req now newId).1 ≠ .locationRequired)
    ∧ ∀ v, (registerVoter d pip e voters req now newId).1 = .success v → v.regionId = none := by
  unfold registerVoter
  split
  · exact ⟨⟨by simp, by simp⟩, by simp⟩
  · split
    · exact ⟨⟨by simp, by simp⟩, by simp⟩
    · split
      · exact ⟨⟨by simp, by simp⟩, by simp⟩
      · rw [if_neg (by simp [hfalse])]
        exact ⟨finishRegistration_not_location e _ req newId none,
               fun v h => finishRegistration_region e _ req newId none v h⟩

/-- Claim C7 (amended): for every election with `requireLocation` true and
*at least one region*, a registration whose coordinate matches no region
never succeeds (the location step rejects it, and any earlier gate also
rejects); a successful registration records exactly the first matching
region, in iteration order, as the voter's assigned region; and with
`requireLocation` false the location check is skipped entirely and no
region is assigned. -/
theorem c7_location_gate (d : DistFn) (pip : PipFn) (e : Election) (voters : List Voter)
    (req : RegisterRequest) (now : Int) (newId : String) :
    (e.requireLocation = true → e.regions ≠ [] →
      ∀ la lo, req.latitude = some la → req.longitude = some lo →
        firstMatch d pip la lo e.regions = .ok none →
        ∀ v, (registerVoter d pip e voters req now newId).1 ≠ .success v)
    ∧ (∀ v, (registerVoter d pip e voters req now newId).1 = .success v →
        e.requireLocation = true → e.regions ≠ [] →
        ∃ la lo r, req.latitude = some la ∧ req.longitude = some lo ∧
          firstMatch d pip la lo e.regions = .ok (some r) ∧ v.regionId = some r.id)
    ∧ (e.requireLocation = false →
        ((registerVoter d pip e voters req now newId).1 ≠ .notInAnyRegion
         ∧ (registerVoter d pip e voters req now newId).1 ≠ .locationRequired)
        ∧ ∀ v, (registerVoter d pip e voters req now newId).1 = .success v →
            v.regionId = none) := by
  refine ⟨?_, ?_, ?_⟩
  · intro hreq hreg la lo hla hlo hfm v
    unfold registerVoter
    split
    · simp
    · split
      · simp
      · split
        · simp
        · rw [if_pos ⟨hreq, hreg⟩, hla, hlo]
          dsimp only
          rw [hfm]
          simp
  · intro v hsucc hreq hreg
    unfold registerVoter at hsucc
    split at hsucc
    · exact absurd hsucc (by simp)
    · split at hsucc
      · exact absurd hsucc (by simp)
      · split at hsucc
        · exact absurd hsucc (by simp)
        · rw [if_pos ⟨hreq, hreg⟩] at hsucc
          split at hsucc
          · rename_i la lo hla hlo
            split at hsucc
            · exact absurd hsucc (by simp)
            · exact absurd hsucc (by simp)
            · rename_i r hfm
              exact ⟨la, lo, r, hla, hlo, hfm,
                finishRegistration_region e voters req newId (some r.id) v hsucc⟩
          · exact absurd hsucc (by simp)
  · intro hfalse
    exact registerVoter_no_location_check d pip e voters req now newId hfalse

/-- Claim C7, counterexample: an election with `requireLocation = true` but
an empty region list skips the location check (`regions.length > 0` guards
it), so a registration from a coordinate that matches no region — there
are none — succeeds with no assigned region, where the claim requires a
rejection. -/
theorem c7_counterexample :
    c7E.requireLocation = true ∧ c7E.regions = [] ∧
    (registerVoter dZero pipFalse c7E [] c7Req 50 "nv") = (.success c7Voter, [c7Voter]) := by
  refine ⟨rfl, rfl, by decide⟩

/-- Witness for C7's amended theorem: at a distance function reporting the
coordinate 100 m from the only region's 5 m circle, registration does not
succeed. -/
theorem c7_location_gate_witness :
    (registerVoter dFar pipFalse c7WE [] c7WReq 50 "nv").1 ≠ .success c7WVoter :=
  (c7_location_gate dFar pipFalse c7WE [] c7WReq 50 "nv").1 rfl (by simp [c7WE]) 1 2
    rfl rfl (by norm_num [firstMatch, isPointInRegion, c7WE, dFar]) c7WVoter

/-- Claim C10: the one-registration-per-device check runs only when the
request itself carries a `deviceFingerprint`.  A request without one can
never be rejected for a duplicate device, and — with the other gates
passing — registration succeeds at any security level even when another
voter of the same election already has a recorded fingerprint. -/
theorem c10_device_skip (d : DistFn) (pip : PipFn) (e : Election) (voters : List Voter)
    (req : RegisterRequest) (now : Int) (newId : String)
    (hfp : req.deviceFingerprint = none) :
    ((registerVoter d pip e voters req now newId).1 ≠ .deviceAlreadyRegistered)
    ∧ (getElectionPhase e now = .registration →
       voters.find? (fun v => decide (v.electionId = e.id) && decide (v.email = req.email))
         = none →
       e.requireLocation = false →
       e.customFields.find? (fun f => f.isRequired && fieldBlank req.customFieldValues f.id)
         = none →
       (∃ w ∈ voters, w.electionId = e.id ∧ w.deviceFingerprint ≠ none) →
       (registerVoter d pip e voters req now newId).1
         = .success { id := newId, electionId := e.id, email := req.email,
                      emailVerified := false, deviceFingerprint := none, regionId := none,
                      locationLat := jsOrNull req.latitude,
                      locationLng := jsOrNull req.longitude }) := by
  constructor
  · unfold registerVoter
    split
    · simp
    · split
      · simp
      · split
        · rename_i hdev
          rw [hfp] at hdev
          simp [truthyStr] at hdev
        · split
          · split
            · split
              · simp
              · simp
              · exact finishRegistration_not_device e voters req newId _
            · simp
          · exact finishRegistration_not_device e voters req newId none
  · intro hphase hdup hloc hcf _
    unfold registerVoter
    rw [if_neg (show ¬ getElectionPhase e now ≠ .registration from fun hne => hne hphase), hdup]
    dsimp only
    rw [if_neg (by simp [hfp, truthyStr]), if_neg (by simp [hloc])]
    unfold finishRegistration
    rw [hcf]
    dsimp only
    rw [hfp]
    simp [truthyStr]

/-- Witness for C10 at concrete inputs: strict security, a prior voter of
the same election with a recorded fingerprint, and a request without a
fingerprint — registration succeeds. -/
theorem c10_device_skip_witness :
    (registerVoter dZero pipFalse c10E [c10Prior] { email := "n@x" } 50 "n1").1
      = .success { id := "n1", electionId := "eA", email := "n@x", emailVerified := false,
                   deviceFingerprint := none, regionId := none,
                   locationLat := none, locationLng := none } :=
  (c10_device_skip dZero pipFalse c10E [c10Prior] { email := "n@x" } 50 "n1" rfl).2
    (by decide) (by decide) rfl rfl ⟨c10Prior, by simp, rfl, by simp [c10Prior]⟩

end ElectionHub
